import Mathlib

/-!
Verification of the Nessie MCP server (src/index.ts) against its
natural-language specification.

The development shallowly embeds the data model and the operations of the
source file:

* JavaScript/JSON values are the mutual inductive `Json` / `JsonList` /
  `JsonFields` (a JS object is an association list of fields; a JS array is
  a list of values).  `undefined` is represented by `Option Json` being
  `none` where it can occur (property access results).
* JS truthiness is `jsTruthy`; property access `x.f` is `jsGetField`
  (it throws a `TypeError` on `null`, returns `none` (undefined) on
  non-objects, and looks the key up on objects).
* Template-literal string conversion is `jsToString` / `jsValToString`;
  `JSON.stringify` is `stringify`; JS `Number` rendering (for the integer
  subset used here) is `intToString` built on the fuel-structured
  `natToCharsAux`.
* The axios call inside `callNessie` is modelled by its outcome: either a
  2xx response body (`Except.ok body`) or a raised `AxiosFailure` carrying
  `error.response?.data` and `error.message`.  `callNessie` embeds the
  `try`/`catch` of the source.
* Tool handlers are functions from the value `callNessie` returned to
  `Except JsError ToolResult`: `Except.error` means a JS exception escaped
  the handler, `Except.ok` is the returned response envelope.
-/

-- A JSON/JS value.  Mutual with `JsonList` (arrays) and `JsonFields`
-- (objects as association lists) so recursion over values is structural.
mutual

inductive Json where
  | null
  | bool (b : Bool)
  | num (n : Int)
  | str (s : String)
  | arr (elems : JsonList)
  | obj (fields : JsonFields)
  deriving Repr

inductive JsonList where
  | nil
  | cons (head : Json) (tail : JsonList)
  deriving Repr

inductive JsonFields where
  | nil
  | cons (key : String) (val : Json) (tail : JsonFields)
  deriving Repr

end

/-- Build a JS array value from a Lean list. -/
def JsonList.ofList : List Json → JsonList
  | [] => .nil
  | x :: xs => .cons x (JsonList.ofList xs)

/-- Build a JS object value from a Lean association list. -/
def JsonFields.ofList : List (String × Json) → JsonFields
  | [] => .nil
  | (k, v) :: xs => .cons k v (JsonFields.ofList xs)

/-- First field with the given key, as JS property lookup on an object. -/
def JsonFields.lookup : JsonFields → String → Option Json
  | .nil, _ => none
  | .cons k v rest, name => if k = name then some v else rest.lookup name

/-- JS truthiness of a defined value: `null`, `false`, `0`, and `""` are
falsy; every object and array is truthy. -/
def jsTruthy : Json → Bool
  | .null => false
  | .bool b => b
  | .num n => n != 0
  | .str s => s != ""
  | .arr _ => true
  | .obj _ => true

/-- JS truthiness of a possibly-`undefined` value (`none` = `undefined`). -/
def jsTruthyOpt : Option Json → Bool
  | none => false
  | some v => jsTruthy v

/-- The JS exceptions the embedded code can raise. -/
inductive JsError where
  | typeError
  deriving Repr, DecidableEq

/-- JS property access `x.f`: throws a `TypeError` on `null`, yields the
field on objects (or `undefined` when absent), and `undefined` on every
other primitive or array (none of the accessed names is a built-in). -/
def jsGetField : Json → String → Except JsError (Option Json)
  | .null, _ => .error .typeError
  | .obj fields, name => .ok (fields.lookup name)
  | _, _ => .ok none

/-- The decimal digit character for `n < 10`. -/
def digitChar : Nat → Char
  | 0 => '0' | 1 => '1' | 2 => '2' | 3 => '3' | 4 => '4'
  | 5 => '5' | 6 => '6' | 7 => '7' | 8 => '8' | 9 => '9'
  | _ => '*'

/-- Decimal digits of `n`, most significant first; `fuel` bounds the
recursion depth (any `fuel > n` is enough) so the definition is structural
and evaluates by `rfl`/`decide`. -/
def natToCharsAux : Nat → Nat → List Char
  | 0, _ => []
  | fuel + 1, n =>
    if n < 10 then [digitChar n]
    else natToCharsAux fuel (n / 10) ++ [digitChar (n % 10)]

/-- Decimal digits of a natural number, most significant first. -/
def natToChars (n : Nat) : List Char := natToCharsAux (n + 1) n

/-- JS rendering of a non-negative integer-valued `Number`. -/
def natToString (n : Nat) : String := String.mk (natToChars n)

/-- JS rendering of an integer-valued `Number` (the only numbers the
embedded code manipulates). -/
def intToString (n : Int) : String :=
  if n < 0 then "-" ++ natToString n.natAbs else natToString n.natAbs

mutual

/-- JS `String(v)` conversion of a defined value, as used by template
literals: strings stay themselves, numbers print in decimal, `null` prints
`"null"`, arrays join their elements with `","` (with `null` elements
rendered empty, as JS `Array.prototype.toString` does), plain objects
print `"[object Object]"`. -/
def jsValToString : Json → String
  | .null => "null"
  | .bool true => "true"
  | .bool false => "false"
  | .num n => intToString n
  | .str s => s
  | .arr elems => String.intercalate "," (jsArrayItemStrings elems)
  | .obj _ => "[object Object]"

/-- Element renderings used by JS array-to-string conversion. -/
def jsArrayItemStrings : JsonList → List String
  | .nil => []
  | .cons v vs =>
    (match v with
     | .null => ""
     | w => jsValToString w) :: jsArrayItemStrings vs

end

/-- JS `String(v)` conversion of a possibly-`undefined` value. -/
def jsToString : Option Json → String
  | none => "undefined"
  | some v => jsValToString v

/-- Hexadecimal digit character for `n < 16`. -/
def hexDigit : Nat → Char
  | 0 => '0' | 1 => '1' | 2 => '2' | 3 => '3' | 4 => '4'
  | 5 => '5' | 6 => '6' | 7 => '7' | 8 => '8' | 9 => '9'
  | 10 => 'a' | 11 => 'b' | 12 => 'c' | 13 => 'd' | 14 => 'e' | 15 => 'f'
  | _ => '*'

/-- JSON string escaping of one character, as `JSON.stringify` performs. -/
def escapeJsonChar (c : Char) : String :=
  if c = '"' then "\\\""
  else if c = '\\' then "\\\\"
  else if c = '\n' then "\\n"
  else if c = '\r' then "\\r"
  else if c = '\t' then "\\t"
  else if c.toNat = 8 then "\\b"
  else if c.toNat = 12 then "\\f"
  else if c.toNat < 32 then
    "\\u00" ++ String.mk [hexDigit (c.toNat / 16), hexDigit (c.toNat % 16)]
  else String.mk [c]

/-- JSON string escaping, character by character. -/
def escapeJson (s : String) : String := String.join (s.data.map escapeJsonChar)

/-- A JSON string literal: escaped content between double quotes. -/
def quoteEscape (s : String) : String := "\"" ++ escapeJson s ++ "\""

mutual

/-- Embedding of `JSON.stringify` on defined values. -/
def stringify : Json → String
  | .null => "null"
  | .bool true => "true"
  | .bool false => "false"
  | .num n => intToString n
  | .str s => quoteEscape s
  | .arr elems => "[" ++ String.intercalate "," (stringifyElems elems) ++ "]"
  | .obj fields => "\x7b" ++ String.intercalate "," (stringifyFields fields) ++ "\x7d"

/-- Serializations of the elements of a JSON array. -/
def stringifyElems : JsonList → List String
  | .nil => []
  | .cons v vs => stringify v :: stringifyElems vs

/-- Serializations `"key":value` of the fields of a JSON object. -/
def stringifyFields : JsonFields → List String
  | .nil => []
  | .cons k v fs => (quoteEscape k ++ ":" ++ stringify v) :: stringifyFields fs

end

/-- Rendering `JSON.stringify(x)` interpolated into a template literal for a
possibly-`undefined` `x` (on `undefined`, `JSON.stringify` yields
`undefined`, which the template renders as the word `"undefined"`). -/
def jsonStringifyOpt : Option Json → String
  | none => "undefined"
  | some v => stringify v

/-- The fixed upstream base URL (`NESSIE_BASE_URL` in the source). -/
def NESSIE_BASE_URL : String := "http://api.nessieisreal.com"

/-- The HTTP request the axios call in `callNessie` is configured with. -/
structure HttpRequest where
  method : String
  url : String
  queryParams : List (String × String)
  headers : List (String × String)
  body : Option Json
  deriving Repr

/-- The axios configuration object built inside `callNessie`:
method as given, URL `NESSIE_BASE_URL ++ endpoint`, the API key as the
query parameter `key`, a JSON content-type header, and the optional body. -/
def buildNessieRequest (apiKey method endpoint : String) (data : Option Json) :
    HttpRequest :=
  { method := method
    url := NESSIE_BASE_URL ++ endpoint
    queryParams := [("key", apiKey)]
    headers := [("Content-Type", "application/json")]
    body := data }

/-- The serialized body axios sends: the JSON serialization of the `data`
field when one is present. -/
def requestBodyText (r : HttpRequest) : Option String := r.body.map stringify

/-- The error axios raises on a transport failure or non-2xx response:
`responseData` is `error.response?.data` (absent when no response arrived,
e.g. a connection error) and `message` is `error.message`. -/
structure AxiosFailure where
  responseData : Option Json
  message : String

/-- The value of `error.response?.data || error.message` in the `catch` of
`callNessie`: the response body when present and truthy, otherwise the
error message string (JS `||` picks the first truthy operand). -/
def nessieErrorValue (e : AxiosFailure) : Json :=
  match e.responseData with
  | some v => if jsTruthy v then v else .str e.message
  | none => .str e.message

/-- Embedding of `callNessie`, parameterized by the outcome of its single
axios call: a 2xx response body is returned verbatim; a raised
`AxiosFailure` is caught and converted to `{ error: ... }`. -/
def callNessie (attempt : Except AxiosFailure Json) : Json :=
  match attempt with
  | .ok body => body
  | .error e => .obj (.cons "error" (nessieErrorValue e) .nil)

/-- The source makes exactly one axios call per `callNessie` invocation;
modelling the network as a stream of per-attempt outcomes, the call
consumes attempt `0` only. -/
def callNessieOn (attempts : Nat → Except AxiosFailure Json) : Json :=
  callNessie (attempts 0)

/-- One typed content block of a tool response (`{ type: "text", text }`). -/
structure ContentBlock where
  type : String
  text : String
  deriving Repr, DecidableEq

/-- The response envelope a tool handler returns (`{ content: [...] }`). -/
structure ToolResult where
  content : List ContentBlock
  deriving Repr, DecidableEq

/-- The envelope `{ content: [{ type: "text", text: s }] }` both handlers
build. -/
def textResult (s : String) : ToolResult :=
  { content := [{ type := "text", text := s }] }

/-- The callback of `data.map(...)` in the `get_customer_accounts` handler:
the template literal builds
"- ${acc.nickname} (${acc.type}): $${acc.balance} (ID: ${acc._id})";
each property access can throw (on a `null` element). -/
def formatAccount (acc : Json) : Except JsError String :=
  match jsGetField acc "nickname", jsGetField acc "type",
      jsGetField acc "balance", jsGetField acc "_id" with
  | .error e, _, _, _ => .error e
  | _, .error e, _, _ => .error e
  | _, _, .error e, _ => .error e
  | _, _, _, .error e => .error e
  | .ok nick, .ok ty, .ok bal, .ok ident =>
    .ok ("- " ++ jsToString nick ++ " (" ++ jsToString ty ++ "): $" ++
      jsToString bal ++ " (ID: " ++ jsToString ident ++ ")")

/-- `Array.prototype.map` over the payload with the throwing callback
`formatAccount`: evaluated left to right, the first thrown exception
escapes. -/
def mapFormat : JsonList → Except JsError (List String)
  | .nil => .ok []
  | .cons a as =>
    match formatAccount a with
    | .error e => .error e
    | .ok s =>
      match mapFormat as with
      | .error e => .error e
      | .ok rest => .ok (s :: rest)

/-- The endpoint string of the `get_customer_accounts` handler,
"/customers/${customerId}/accounts". -/
def getAccountsEndpoint (customerId : String) : String :=
  "/customers/" ++ customerId ++ "/accounts"

/-- The HTTP request `get_customer_accounts` makes through `callNessie`
(a GET with no body). -/
def getAccountsRequest (apiKey customerId : String) : HttpRequest :=
  buildNessieRequest apiKey "GET" (getAccountsEndpoint customerId) none

/-- Embedding of the `get_customer_accounts` handler body, applied to the
value `data` that `callNessie` returned: if `data.error` is truthy, an
`Error:`-prefixed envelope; otherwise `data.map(...)` (which throws a
`TypeError` unless `data` is an array) feeds the `Accounts found:` text. -/
def get_customer_accounts_handler (data : Json) : Except JsError ToolResult :=
  match jsGetField data "error" with
  | .error e => .error e
  | .ok err =>
    if jsTruthyOpt err then
      .ok (textResult ("Error: " ++ jsonStringifyOpt err))
    else
      match data with
      | .arr elems =>
        (match mapFormat elems with
         | .error e => .error e
         | .ok lines =>
           .ok (textResult ("Accounts found:\n" ++
             String.intercalate "\n" lines)))
      | _ => .error .typeError

/-- The `get_customer_accounts` tool end to end: the handler applied to the
value `callNessie` produced for the single upstream attempt. -/
def get_customer_accounts (attempt : Except AxiosFailure Json) :
    Except JsError ToolResult :=
  get_customer_accounts_handler (callNessie attempt)

/-- The UTC instant `new Date()` observes, by its `toISOString` components. -/
structure DateTime where
  year : Nat
  month : Nat
  day : Nat
  hour : Nat
  minute : Nat
  second : Nat
  ms : Nat

/-- Zero-left-padding of the decimal digits of `n` to width `k`, as the
fixed-width fields of `Date.prototype.toISOString` are printed. -/
def padChars (k n : Nat) : List Char :=
  List.replicate (k - (natToChars n).length) '0' ++ natToChars n

/-- The characters of the date part `YYYY-MM-DD` of an ISO timestamp. -/
def dateChars (dt : DateTime) : List Char :=
  padChars 4 dt.year ++ ('-' :: (padChars 2 dt.month ++ ('-' :: padChars 2 dt.day)))

/-- The characters of the time part `HH:mm:ss.sssZ` of an ISO timestamp. -/
def timeChars (dt : DateTime) : List Char :=
  padChars 2 dt.hour ++ (':' :: (padChars 2 dt.minute ++ (':' ::
    (padChars 2 dt.second ++ ('.' :: (padChars 3 dt.ms ++ ['Z']))))))

/-- Embedding of `Date.prototype.toISOString`: the UTC date, the letter
`T`, then the UTC time. -/
def toISOString (dt : DateTime) : String :=
  String.mk (dateChars dt ++ 'T' :: timeChars dt)

/-- One splitting step of JS `String.prototype.split` with a one-character
separator, over the character list. -/
def splitCharAux (sep : Char) : List Char → List (List Char)
  | [] => [[]]
  | c :: cs =>
    let rest := splitCharAux sep cs
    if c = sep then [] :: rest
    else (c :: rest.headD []) :: rest.tail

/-- JS `s.split(sep)` for a one-character separator. -/
def jsSplit (sep : Char) (s : String) : List String :=
  (splitCharAux sep s.data).map String.mk

/-- The `transaction_date` value the transfer handler computes:
`new Date().toISOString().split("T")[0]` (index `0` of a split result,
which is never empty). -/
def transaction_date (now : DateTime) : String :=
  (jsSplit 'T' (toISOString now)).headD ""

/-- The transfer request body the handler constructs:
`{ medium: "balance", payee_id, amount, transaction_date }`. -/
def transferPayload (payeeId : String) (amount : Int) (now : DateTime) : Json :=
  .obj (.cons "medium" (.str "balance")
    (.cons "payee_id" (.str payeeId)
      (.cons "amount" (.num amount)
        (.cons "transaction_date" (.str (transaction_date now)) .nil))))

/-- The endpoint string of the `transfer_money` handler,
"/accounts/${payerId}/transfers". -/
def transferEndpoint (payerId : String) : String :=
  "/accounts/" ++ payerId ++ "/transfers"

/-- The HTTP request `transfer_money` makes through `callNessie`
(a POST carrying the transfer payload). -/
def transferRequest (apiKey payerId payeeId : String) (amount : Int)
    (now : DateTime) : HttpRequest :=
  buildNessieRequest apiKey "POST" (transferEndpoint payerId)
    (some (transferPayload payeeId amount now))

/-- Embedding of the `transfer_money` handler body after the upstream call,
applied to the value `data` that `callNessie` returned: a truthy
`data.error` yields the `Transfer Failed:` envelope, otherwise the
`Transfer Successful:` envelope interpolating `data.message`. -/
def transfer_money_handler (payerId payeeId : String) (amount : Int)
    (data : Json) : Except JsError ToolResult :=
  match jsGetField data "error" with
  | .error e => .error e
  | .ok err =>
    if jsTruthyOpt err then
      .ok (textResult ("Transfer Failed: " ++ jsonStringifyOpt err))
    else
      match jsGetField data "message" with
      | .error e => .error e
      | .ok msg =>
        .ok (textResult ("Transfer Successful: " ++ jsToString msg ++
          "\nTransferred $" ++ intToString amount ++ " from " ++ payerId ++
          " to " ++ payeeId ++ "."))

/-- The `transfer_money` tool end to end: the handler applied to the value
`callNessie` produced for the single upstream attempt. -/
def transfer_money (payerId payeeId : String) (amount : Int)
    (attempt : Except AxiosFailure Json) : Except JsError ToolResult :=
  transfer_money_handler payerId payeeId amount (callNessie attempt)

/-- What one run of the `app.post("/messages")` handler does: the HTTP
status it acknowledges with, and the inbound bodies it hands to the bound
session transport for protocol processing. -/
structure MessagesPostEffect where
  status : Nat
  deliveredToTransport : List String
  deriving Repr, DecidableEq

/-- Embedding of the `app.post("/messages")` handler: the source body is
exactly `res.sendStatus(200)` — it never passes `req` to the SSE transport
(no `handlePostMessage` call), so no inbound body is delivered. -/
def messagesPostHandler (_body : String) : MessagesPostEffect :=
  { status := 200, deliveredToTransport := [] }

/-- The string `sub` occurs contiguously inside `s` (the "contains"
relation the claims use), as an infix of the character lists. -/
def StrContains (s sub : String) : Prop := sub.data <:+: s.data

instance (s sub : String) : Decidable (StrContains s sub) :=
  inferInstanceAs (Decidable (sub.data <:+: s.data))

/-- The string `p` is a prefix of `s` (the "begins with" relation the
claims use). -/
def StrStartsWith (s p : String) : Prop := p.data <+: s.data

instance (s p : String) : Decidable (StrStartsWith s p) :=
  inferInstanceAs (Decidable (p.data <+: s.data))

/-- A decomposition `s = pre ++ sub ++ suf` shows containment. -/
theorem strContains_intro {s sub : String} (pre suf : String)
    (h : s = pre ++ sub ++ suf) : StrContains s sub := by
  subst h
  refine ⟨pre.data, suf.data, ?_⟩
  simp [String.data_append]

/-- A decomposition `s = p ++ rest` shows `s` begins with `p`. -/
theorem strStartsWith_intro {s p : String} (rest : String)
    (h : s = p ++ rest) : StrStartsWith s p := by
  subst h
  show p.data <+: _
  rw [String.data_append]
  exact List.prefix_append _ _

/-- A prefix of `s` in particular occurs in `s`. -/
theorem strStartsWith_strContains {s p : String} (h : StrStartsWith s p) :
    StrContains s p :=
  List.IsPrefix.isInfix h

/-- An account record of the shape the specified success scenarios use. -/
structure Account where
  nickname : String
  type : String
  balance : Int
  accountId : String

/-- The JSON object carrying an account record, with the upstream's field
names (`_id` for the identifier). -/
def Account.toJson (a : Account) : Json :=
  .obj (.cons "nickname" (.str a.nickname)
    (.cons "type" (.str a.type)
      (.cons "balance" (.num a.balance)
        (.cons "_id" (.str a.accountId) .nil))))

/-- The line the handler formats for one account record. -/
def accountLine (a : Account) : String :=
  "- " ++ a.nickname ++ " (" ++ a.type ++ "): $" ++ intToString a.balance ++
    " (ID: " ++ a.accountId ++ ")"

/-- Whether a JS array has a `null` element (the one element shape on which
the formatting callback itself throws). -/
def JsonList.hasNullElem : JsonList → Bool
  | .nil => false
  | .cons .null _ => true
  | .cons _ rest => rest.hasNullElem

theorem formatAccount_total {acc : Json} (h : acc ≠ .null) :
    ∃ s, formatAccount acc = .ok s := by
  cases acc with
  | null => exact absurd rfl h
  | bool b => exact ⟨_, rfl⟩
  | num n => exact ⟨_, rfl⟩
  | str s => exact ⟨_, rfl⟩
  | arr l => exact ⟨_, rfl⟩
  | obj fs => exact ⟨_, rfl⟩

theorem mapFormat_total : ∀ (l : JsonList), l.hasNullElem = false →
    ∃ ss, mapFormat l = .ok ss
  | .nil, _ => ⟨[], rfl⟩
  | .cons a as, h => by
    have ha : a ≠ .null := by
      intro hnull
      subst hnull
      simp [JsonList.hasNullElem] at h
    have has : as.hasNullElem = false := by
      cases a <;> simp_all [JsonList.hasNullElem]
    obtain ⟨s, hs⟩ := formatAccount_total ha
    obtain ⟨ss, hss⟩ := mapFormat_total as has
    exact ⟨s :: ss, by simp [mapFormat, hs, hss]⟩

theorem formatAccount_toJson (a : Account) :
    formatAccount a.toJson = .ok (accountLine a) := rfl

theorem mapFormat_ofList_toJson (accs : List Account) :
    mapFormat (JsonList.ofList (accs.map Account.toJson)) =
      .ok (accs.map accountLine) := by
  induction accs with
  | nil => rfl
  | cons a as ih =>
    simp [JsonList.ofList, mapFormat, formatAccount_toJson, ih]

theorem get_handler_error_branch {data e : Json}
    (hlook : jsGetField data "error" = .ok (some e))
    (ht : jsTruthy e = true) :
    get_customer_accounts_handler data =
      .ok (textResult ("Error: " ++ stringify e)) := by
  unfold get_customer_accounts_handler
  rw [hlook]
  simp [jsTruthyOpt, ht, jsonStringifyOpt]

theorem transfer_handler_error_branch (p q : String) (a : Int) {data e : Json}
    (hlook : jsGetField data "error" = .ok (some e))
    (ht : jsTruthy e = true) :
    transfer_money_handler p q a data =
      .ok (textResult ("Transfer Failed: " ++ stringify e)) := by
  unfold transfer_money_handler
  rw [hlook]
  simp [jsTruthyOpt, ht, jsonStringifyOpt]

theorem transfer_handler_total (p q : String) (a : Int) {data : Json}
    (h : data ≠ .null) :
    ∃ s, transfer_money_handler p q a data = .ok (textResult s) := by
  cases data with
  | null => exact absurd rfl h
  | bool b => exact ⟨_, rfl⟩
  | num n => exact ⟨_, rfl⟩
  | str s => exact ⟨_, rfl⟩
  | arr l => exact ⟨_, rfl⟩
  | obj fs =>
    by_cases ht : jsTruthyOpt (fs.lookup "error") = true
    · refine ⟨"Transfer Failed: " ++ jsonStringifyOpt (fs.lookup "error"), ?_⟩
      simp [transfer_money_handler, jsGetField, ht]
    · refine ⟨"Transfer Successful: " ++ jsToString (fs.lookup "message") ++
        "\nTransferred $" ++ intToString a ++ " from " ++ p ++
        " to " ++ q ++ ".", ?_⟩
      simp [transfer_money_handler, jsGetField,
        Bool.not_eq_true _ ▸ ht]

theorem get_handler_array {elems : JsonList} (h : elems.hasNullElem = false) :
    ∃ s, get_customer_accounts_handler (.arr elems) = .ok (textResult s) := by
  obtain ⟨ss, hss⟩ := mapFormat_total elems h
  exact ⟨"Accounts found:\n" ++ String.intercalate "\n" ss,
    by simp [get_customer_accounts_handler, jsGetField, jsTruthyOpt, hss]⟩

theorem get_handler_obj_falsy_error {fs : JsonFields}
    (h : jsTruthyOpt (fs.lookup "error") = false) :
    get_customer_accounts_handler (.obj fs) = .error .typeError := by
  simp [get_customer_accounts_handler, jsGetField, h]

theorem digitChar_isDigit {n : Nat} (h : n < 10) :
    (digitChar n).isDigit = true := by
  interval_cases n <;> rfl

theorem natToCharsAux_isDigit : ∀ (fuel n : Nat), ∀ c ∈ natToCharsAux fuel n,
    c.isDigit = true
  | 0, n => by simp [natToCharsAux]
  | fuel + 1, n => by
    intro c hc
    by_cases h : n < 10
    · simp [natToCharsAux, h] at hc
      subst hc
      exact digitChar_isDigit h
    · simp only [natToCharsAux, if_neg h, List.mem_append,
        List.mem_singleton] at hc
      rcases hc with hc | hc
      · exact natToCharsAux_isDigit fuel (n / 10) c hc
      · subst hc
        exact digitChar_isDigit (Nat.mod_lt _ (by omega))

theorem natToChars_isDigit {n : Nat} : ∀ c ∈ natToChars n, c.isDigit = true :=
  natToCharsAux_isDigit _ _

theorem isDigit_ne_T {c : Char} (h : c.isDigit = true) : c ≠ 'T' := by
  intro he
  subst he
  exact absurd h (by decide)

theorem natToCharsAux_fuel : ∀ (f1 f2 n : Nat), n < f1 → n < f2 →
    natToCharsAux f1 n = natToCharsAux f2 n
  | 0, _, n, h1, _ => absurd h1 (by omega)
  | _ + 1, 0, n, _, h2 => absurd h2 (by omega)
  | f1 + 1, f2 + 1, n, h1, h2 => by
    by_cases h : n < 10
    · simp [natToCharsAux, h]
    · have hd : n / 10 < n := Nat.div_lt_self (by omega) (by omega)
      simp only [natToCharsAux, if_neg h]
      rw [natToCharsAux_fuel f1 f2 (n / 10) (by omega) (by omega)]

theorem natToChars_lt10 {n : Nat} (h : n < 10) :
    natToChars n = [digitChar n] := by
  simp [natToChars, natToCharsAux, h]

theorem natToChars_ge10 {n : Nat} (h : 10 ≤ n) :
    natToChars n = natToChars (n / 10) ++ [digitChar (n % 10)] := by
  have hd : n / 10 < n := Nat.div_lt_self (by omega) (by omega)
  simp only [natToChars, natToCharsAux, if_neg (by omega : ¬ n < 10)]
  congr 1
  exact natToCharsAux_fuel n (n / 10 + 1) (n / 10) (by omega) (by omega)

theorem natToChars_length_le : ∀ (k n : Nat), n < 10 ^ (k + 1) →
    (natToChars n).length ≤ k + 1
  | 0, n, h => by
    rw [natToChars_lt10 (by simpa using h)]
    simp
  | k + 1, n, h => by
    by_cases h10 : n < 10
    · rw [natToChars_lt10 h10]
      simp
    · rw [natToChars_ge10 (by omega)]
      have hdiv : n / 10 < 10 ^ (k + 1) := by
        rw [Nat.div_lt_iff_lt_mul (by omega)]
        calc n < 10 ^ (k + 2) := h
        _ = 10 ^ (k + 1) * 10 := by ring
      have := natToChars_length_le k (n / 10) hdiv
      simp only [List.length_append, List.length_singleton]
      omega

theorem padChars_length {k n : Nat} (h : (natToChars n).length ≤ k) :
    (padChars k n).length = k := by
  simp only [padChars, List.length_append, List.length_replicate]
  omega

theorem padChars_isDigit {k n : Nat} : ∀ c ∈ padChars k n, c.isDigit = true := by
  intro c hc
  simp only [padChars, List.mem_append, List.mem_replicate] at hc
  rcases hc with ⟨_, hc⟩ | hc
  · subst hc
    rfl
  · exact natToChars_isDigit c hc

theorem T_not_mem_padChars {k n : Nat} : 'T' ∉ padChars k n := by
  intro h
  exact isDigit_ne_T (padChars_isDigit 'T' h) rfl

theorem T_not_mem_dateChars (dt : DateTime) : 'T' ∉ dateChars dt := by
  unfold dateChars
  intro h
  rcases List.mem_append.1 h with h1 | h2
  · exact T_not_mem_padChars h1
  rcases List.mem_cons.1 h2 with h3 | h4
  · exact absurd h3 (by decide)
  rcases List.mem_append.1 h4 with h5 | h6
  · exact T_not_mem_padChars h5
  rcases List.mem_cons.1 h6 with h7 | h8
  · exact absurd h7 (by decide)
  · exact T_not_mem_padChars h8

theorem splitCharAux_ne_nil (sep : Char) (l : List Char) :
    splitCharAux sep l ≠ [] := by
  cases l with
  | nil => simp [splitCharAux]
  | cons c cs =>
    simp only [splitCharAux]
    split <;> simp

theorem splitCharAux_headD (sep : Char) : ∀ (a b : List Char), sep ∉ a →
    (splitCharAux sep (a ++ sep :: b)).headD [] = a
  | [], b, _ => by simp [splitCharAux]
  | c :: a, b, h => by
    have hc : c ≠ sep := by
      intro he
      exact h (he ▸ List.mem_cons_self c a)
    have ha : sep ∉ a := fun hm => h (List.mem_cons_of_mem c hm)
    simp only [List.cons_append, splitCharAux, if_neg hc]
    simpa using splitCharAux_headD sep a b ha

theorem headD_map_mk {l : List (List Char)} (h : l ≠ []) :
    (l.map String.mk).headD "" = String.mk (l.headD []) := by
  cases l with
  | nil => exact absurd rfl h
  | cons x xs => rfl

theorem transaction_date_eq (dt : DateTime) :
    transaction_date dt = String.mk (dateChars dt) := by
  unfold transaction_date jsSplit toISOString
  rw [show (String.mk (dateChars dt ++ 'T' :: timeChars dt)).data =
    dateChars dt ++ 'T' :: timeChars dt from rfl]
  rw [headD_map_mk (splitCharAux_ne_nil _ _),
    splitCharAux_headD 'T' _ _ (T_not_mem_dateChars dt)]

/-- A decomposition `s = pre ++ sub` (containment at the end of `s`). -/
theorem strContains_intro2 {s sub : String} (pre : String)
    (h : s = pre ++ sub) : StrContains s sub := by
  subst h
  refine ⟨pre.data, [], ?_⟩
  simp [String.data_append]

/-- C9: for every call, the upstream client builds the request URL as the
fixed base URL concatenated with the given relative path, attaches the
authentication key as the query parameter `key`, sets a JSON content-type
header, serializes the body as JSON when present, and on a 2xx response
returns the upstream response body verbatim. -/
theorem C9_callNessie_request (apiKey method endpoint : String)
    (data : Option Json) (body : Json) :
    (buildNessieRequest apiKey method endpoint data).url =
        NESSIE_BASE_URL ++ endpoint ∧
    (buildNessieRequest apiKey method endpoint data).method = method ∧
    (buildNessieRequest apiKey method endpoint data).queryParams =
        [("key", apiKey)] ∧
    (buildNessieRequest apiKey method endpoint data).headers =
        [("Content-Type", "application/json")] ∧
    requestBodyText (buildNessieRequest apiKey method endpoint data) =
        data.map stringify ∧
    callNessie (.ok body) = body :=
  ⟨rfl, rfl, rfl, rfl, rfl, rfl⟩

/-- C6: a successful upstream response that is a sequence of N account
records yields the envelope whose text is the header `Accounts found:`
followed by the N lines `- <nickname> (<type>): $<balance> (ID: <id>)`
joined by newlines; in particular the stub record
`[{nickname:"Checking",type:"checking",balance:500,_id:"x1"}]` yields
exactly `"Accounts found:\n- Checking (checking): $500 (ID: x1)"`. -/
theorem C6_accounts_formatting (accs : List Account) :
    get_customer_accounts_handler
        (.arr (JsonList.ofList (accs.map Account.toJson))) =
      .ok (textResult ("Accounts found:\n" ++
        String.intercalate "\n" (accs.map accountLine))) ∧
    (accs.map accountLine).length = accs.length ∧
    get_customer_accounts (.ok (.arr (.cons
        (Account.toJson ⟨"Checking", "checking", 500, "x1"⟩) .nil))) =
      .ok (textResult "Accounts found:\n- Checking (checking): $500 (ID: x1)") := by
  refine ⟨?_, by simp, rfl⟩
  simp [get_customer_accounts_handler, jsGetField, jsTruthyOpt,
    mapFormat_ofList_toJson]

/-- C4 (code evaluation): for every inbound body, the message-submission
handler acknowledges with HTTP 200 and delivers nothing to the bound
session transport — the required delivery step is missing from the code. -/
theorem C4_messages_post (body : String) :
    messagesPostHandler body = { status := 200, deliveredToTransport := [] } :=
  rfl

/-- C8: at every time of day, the `transaction_date` the transfer handler
sends is the date part of the current UTC instant: it equals the
`YYYY-MM-DD` rendering of the date components, is independent of the time
components, and (for in-range dates) consists of a 4-digit year, 2-digit
month and 2-digit day separated by dashes, with no time component. -/
theorem C8_transaction_date (dt : DateTime) :
    transaction_date dt = String.mk (dateChars dt) ∧
    (∀ h mi s ms2 : Nat,
      transaction_date ⟨dt.year, dt.month, dt.day, h, mi, s, ms2⟩ =
        transaction_date dt) ∧
    (dt.year ≤ 9999 → dt.month ≤ 99 → dt.day ≤ 99 →
      ∃ ys mos ds : List Char,
        (transaction_date dt).data = ys ++ ('-' :: (mos ++ ('-' :: ds))) ∧
        ys.length = 4 ∧ mos.length = 2 ∧ ds.length = 2 ∧
        (∀ c, (c ∈ ys ∨ c ∈ mos ∨ c ∈ ds) → c.isDigit = true)) := by
  refine ⟨transaction_date_eq dt, ?_, ?_⟩
  · intro h mi s ms2
    rw [transaction_date_eq, transaction_date_eq]
    rfl
  · intro hy hmo hd
    refine ⟨padChars 4 dt.year, padChars 2 dt.month, padChars 2 dt.day,
      ?_, ?_, ?_, ?_, ?_⟩
    · rw [transaction_date_eq]
      rfl
    · exact padChars_length (by
        have h4 : (10 : Nat) ^ 4 = 10000 := by norm_num
        have := natToChars_length_le 3 dt.year (by omega)
        omega)
    · exact padChars_length (by
        have h2 : (10 : Nat) ^ 2 = 100 := by norm_num
        have := natToChars_length_le 1 dt.month (by omega)
        omega)
    · exact padChars_length (by
        have h2 : (10 : Nat) ^ 2 = 100 := by norm_num
        have := natToChars_length_le 1 dt.day (by omega)
        omega)
    · intro c hc
      rcases hc with hc | hc | hc <;> exact padChars_isDigit c hc

/-- Witness for C8 at a concrete instant (late-night UTC time of day). -/
theorem C8_witness :
    transaction_date ⟨2026, 10, 11, 23, 59, 59, 999⟩ =
      String.mk (dateChars ⟨2026, 10, 11, 23, 59, 59, 999⟩) ∧
    ∃ ys mos ds : List Char,
      (transaction_date ⟨2026, 10, 11, 23, 59, 59, 999⟩).data =
        ys ++ ('-' :: (mos ++ ('-' :: ds))) ∧
      ys.length = 4 ∧ mos.length = 2 ∧ ds.length = 2 ∧
      (∀ c, (c ∈ ys ∨ c ∈ mos ∨ c ∈ ds) → c.isDigit = true) :=
  ⟨(C8_transaction_date _).1,
    (C8_transaction_date _).2.2 (by decide) (by decide) (by decide)⟩

/-- C7: every invocation of `transfer_money` sends exactly the body
`{ medium: "balance", payee_id, amount, transaction_date }` via POST to
`/accounts/{payerId}/transfers`, and on upstream success returns an
envelope whose text contains `Transfer Successful: ` followed by the
upstream's `message` field and contains `$<amount> from <payerId> to
<payeeId>`; in particular the stub scenario (p1, p2, 50, `{message:"ok"}`)
yields text containing `Transfer Successful: ok` and `$50 from p1 to p2`. -/
theorem C7_transfer_request_and_success (apiKey payerId payeeId : String)
    (amount : Int) (now : DateTime) (m : String) :
    (transferRequest apiKey payerId payeeId amount now).method = "POST" ∧
    (transferRequest apiKey payerId payeeId amount now).url =
      NESSIE_BASE_URL ++ ("/accounts/" ++ payerId ++ "/transfers") ∧
    (transferRequest apiKey payerId payeeId amount now).body =
      some (.obj (.cons "medium" (.str "balance")
        (.cons "payee_id" (.str payeeId)
          (.cons "amount" (.num amount)
            (.cons "transaction_date" (.str (transaction_date now)) .nil))))) ∧
    (∃ t, transfer_money_handler payerId payeeId amount
        (.obj (.cons "message" (.str m) .nil)) = .ok (textResult t) ∧
      StrContains t ("Transfer Successful: " ++ m) ∧
      StrContains t ("$" ++ intToString amount ++ " from " ++ payerId ++
        " to " ++ payeeId)) ∧
    (∃ u, transfer_money "p1" "p2" 50
        (.ok (.obj (.cons "message" (.str "ok") .nil))) =
          .ok (textResult u) ∧
      StrContains u "Transfer Successful: ok" ∧
      StrContains u "$50 from p1 to p2") := by
  refine ⟨rfl, rfl, rfl, ?_, ?_⟩
  · refine ⟨"Transfer Successful: " ++ m ++ "\nTransferred $" ++
      intToString amount ++ " from " ++ payerId ++ " to " ++ payeeId ++ ".",
      rfl, ?_, ?_⟩
    · exact strStartsWith_strContains (strStartsWith_intro
        ("\nTransferred $" ++ intToString amount ++ " from " ++ payerId ++
          " to " ++ payeeId ++ ".")
        (by simp [String.append_assoc]))
    · exact strContains_intro
        ("Transfer Successful: " ++ m ++ "\nTransferred ") "."
        (by rw [show ("\nTransferred $" : String) =
            "\nTransferred " ++ "$" from rfl]
            simp only [String.append_assoc])
  · refine ⟨"Transfer Successful: ok\nTransferred $50 from p1 to p2.",
      rfl, by decide, by decide⟩

/-- C10: a successful (2xx) upstream response whose body is an object with
a truthy `error` field is handled exactly like a failed call: the handlers
discriminate success from failure only by the truthiness of the `error`
property, so such a payload is formatted as the failure envelope, never as
a success. -/
theorem C10_truthy_error_field (fs : JsonFields) (e : Json)
    (p q : String) (a : Int)
    (hlook : fs.lookup "error" = some e) (ht : jsTruthy e = true) :
    get_customer_accounts_handler (callNessie (.ok (.obj fs))) =
      .ok (textResult ("Error: " ++ stringify e)) ∧
    transfer_money_handler p q a (callNessie (.ok (.obj fs))) =
      .ok (textResult ("Transfer Failed: " ++ stringify e)) := by
  have hg : jsGetField (.obj fs) "error" = .ok (some e) := by
    simp [jsGetField, hlook]
  exact ⟨get_handler_error_branch hg ht,
    transfer_handler_error_branch p q a hg ht⟩

/-- Witness for C10 at the concrete success payload `{error:"boom"}`. -/
theorem C10_witness :
    get_customer_accounts_handler
        (callNessie (.ok (.obj (.cons "error" (.str "boom") .nil)))) =
      .ok (textResult "Error: \"boom\"") ∧
    transfer_money_handler "p1" "p2" 50
        (callNessie (.ok (.obj (.cons "error" (.str "boom") .nil)))) =
      .ok (textResult "Transfer Failed: \"boom\"") :=
  C10_truthy_error_field (.cons "error" (.str "boom") .nil) (.str "boom")
    "p1" "p2" 50 rfl rfl

/-- C1 counterexample: the upstream success payload `{}` (an object with no
`error` field) makes the `get_customer_accounts` handler throw a
`TypeError` (`data.map` is not a function) instead of returning a response
envelope, so an exception does cross the handler boundary. -/
theorem C1_counterexample :
    get_customer_accounts (.ok (.obj .nil)) = .error .typeError := rfl

/-- C1 (amended): `transfer_money` returns exactly one single-text-block
envelope for every non-`null` upstream value, and `get_customer_accounts`
does so for every error value (truthy `error` field) and for every array
payload without `null` elements; but a `null` payload makes either handler
throw a `TypeError`, and a non-array success payload without a truthy
`error` field makes `get_customer_accounts` throw a `TypeError`. -/
theorem C1_amended (p q : String) (a : Int) (data e : Json)
    (elems : JsonList) :
    (data ≠ .null →
      ∃ s, transfer_money_handler p q a data = .ok (textResult s)) ∧
    (jsGetField data "error" = .ok (some e) → jsTruthy e = true →
      ∃ s, get_customer_accounts_handler data = .ok (textResult s)) ∧
    (elems.hasNullElem = false →
      ∃ s, get_customer_accounts_handler (.arr elems) = .ok (textResult s)) ∧
    transfer_money_handler p q a .null = .error .typeError ∧
    get_customer_accounts_handler .null = .error .typeError :=
  ⟨fun h => transfer_handler_total p q a h,
    fun h1 h2 => ⟨_, get_handler_error_branch h1 h2⟩,
    fun h => get_handler_array h, rfl, rfl⟩

/-- Witness for C1 (amended) at concrete inputs: an error payload and a
one-element array payload. -/
theorem C1_witness :
    (∃ s, transfer_money_handler "p1" "p2" 50
      (.obj (.cons "error" (.str "x") .nil)) = .ok (textResult s)) ∧
    (∃ s, get_customer_accounts_handler
      (.obj (.cons "error" (.str "x") .nil)) = .ok (textResult s)) ∧
    (∃ s, get_customer_accounts_handler
      (.arr (.cons (.obj .nil) .nil)) = .ok (textResult s)) := by
  have h := C1_amended "p1" "p2" 50 (.obj (.cons "error" (.str "x") .nil))
    (.str "x") (.cons (.obj .nil) .nil)
  exact ⟨h.1 (fun hn => Json.noConfusion hn), h.2.1 rfl rfl, h.2.2.1 rfl⟩

/-- C2 counterexample: the empty-sequence success yields the text
`"Accounts found:\n"`, which is not a "no accounts found" message; and the
non-sequence success payload `{a:1}` makes the handler throw a `TypeError`
instead of returning a serialized dump. -/
theorem C2_counterexample :
    get_customer_accounts (.ok (.arr .nil)) =
      .ok (textResult "Accounts found:\n") ∧
    ¬ StrContains "Accounts found:\n" "no accounts found" ∧
    get_customer_accounts (.ok (.obj (.cons "a" (.num 1) .nil))) =
      .error .typeError :=
  ⟨rfl, by decide, rfl⟩

/-- C2 (amended): on success with an empty sequence the envelope text is
exactly `"Accounts found:\n"` (the header with no account lines — not a
"no accounts found" message); on success with a payload that is present
but not a sequence (boolean, number, string, or object without a truthy
`error` field) the handler throws a `TypeError` rather than returning any
serialized dump. -/
theorem C2_amended (b : Bool) (n : Int) (s : String) (fs : JsonFields) :
    get_customer_accounts_handler (.arr .nil) =
      .ok (textResult "Accounts found:\n") ∧
    get_customer_accounts_handler (.bool b) = .error .typeError ∧
    get_customer_accounts_handler (.num n) = .error .typeError ∧
    get_customer_accounts_handler (.str s) = .error .typeError ∧
    (jsTruthyOpt (fs.lookup "error") = false →
      get_customer_accounts_handler (.obj fs) = .error .typeError) :=
  ⟨rfl, rfl, rfl, rfl, fun h => get_handler_obj_falsy_error h⟩

/-- Witness for C2 (amended) at the concrete payload `{}`. -/
theorem C2_witness :
    get_customer_accounts_handler (.arr .nil) =
      .ok (textResult "Accounts found:\n") ∧
    get_customer_accounts_handler (.obj .nil) = .error .typeError := by
  have h := C2_amended true 1 "x" .nil
  exact ⟨h.1, h.2.2.2.2 rfl⟩

/-- C3 counterexample: at the concrete transport failure
`⟨no response, "Network Error"⟩` the transfer envelope text is
`"Transfer Failed: \"Network Error\""`, which does not begin with the
claimed prefix `"Failed:"`; and at the failure `⟨no response, ""⟩` the
computed error value is falsy, so `get_customer_accounts` throws a
`TypeError` instead of returning any `Error:`-prefixed envelope. -/
theorem C3_counterexample :
    transfer_money "p1" "p2" 50 (.error ⟨none, "Network Error"⟩) =
      .ok (textResult "Transfer Failed: \"Network Error\"") ∧
    ¬ StrStartsWith "Transfer Failed: \"Network Error\"" "Failed:" ∧
    get_customer_accounts (.error ⟨none, ""⟩) = .error .typeError :=
  ⟨rfl, by decide, rfl⟩

/-- C3 (amended): for every upstream failure whose computed error value
(`error.response?.data || error.message`) is truthy,
`get_customer_accounts` returns an envelope whose text begins with
`Error:` and `transfer_money` one whose text begins with
`Transfer Failed:` (and therefore contains `Failed:`), and both texts
contain the JSON-serialized error value. -/
theorem C3_amended (ae : AxiosFailure) (p q : String) (a : Int)
    (ht : jsTruthy (nessieErrorValue ae) = true) :
    (∃ t, get_customer_accounts (.error ae) = .ok (textResult t) ∧
      StrStartsWith t "Error:" ∧
      StrContains t (stringify (nessieErrorValue ae))) ∧
    (∃ t, transfer_money p q a (.error ae) = .ok (textResult t) ∧
      StrStartsWith t "Transfer Failed:" ∧ StrContains t "Failed:" ∧
      StrContains t (stringify (nessieErrorValue ae))) := by
  have hg : jsGetField (callNessie (.error ae)) "error" =
      .ok (some (nessieErrorValue ae)) := by
    simp [callNessie, jsGetField, JsonFields.lookup]
  constructor
  · refine ⟨"Error: " ++ stringify (nessieErrorValue ae),
      get_handler_error_branch hg ht, ?_, ?_⟩
    · exact strStartsWith_intro (" " ++ stringify (nessieErrorValue ae))
        (by rw [show ("Error: " : String) = "Error:" ++ " " from rfl,
          String.append_assoc])
    · exact strContains_intro2 "Error: " rfl
  · refine ⟨"Transfer Failed: " ++ stringify (nessieErrorValue ae),
      transfer_handler_error_branch p q a hg ht, ?_, ?_, ?_⟩
    · exact strStartsWith_intro (" " ++ stringify (nessieErrorValue ae))
        (by rw [show ("Transfer Failed: " : String) =
          "Transfer Failed:" ++ " " from rfl, String.append_assoc])
    · exact strContains_intro "Transfer "
        (" " ++ stringify (nessieErrorValue ae))
        (by rw [show ("Transfer Failed: " : String) =
          ("Transfer " ++ "Failed:") ++ " " from rfl, String.append_assoc,
          String.append_assoc])
    · exact strContains_intro2 "Transfer Failed: " rfl

/-- Witness for C3 (amended) at the concrete transport failure
`⟨no response, "Network Error"⟩`. -/
theorem C3_witness :
    (∃ t, get_customer_accounts (.error ⟨none, "Network Error"⟩) =
        .ok (textResult t) ∧
      StrStartsWith t "Error:" ∧
      StrContains t (stringify (nessieErrorValue ⟨none, "Network Error"⟩))) ∧
    (∃ t, transfer_money "p1" "p2" 50 (.error ⟨none, "Network Error"⟩) =
        .ok (textResult t) ∧
      StrStartsWith t "Transfer Failed:" ∧ StrContains t "Failed:" ∧
      StrContains t (stringify (nessieErrorValue ⟨none, "Network Error"⟩))) :=
  C3_amended ⟨none, "Network Error"⟩ "p1" "p2" 50 (by decide)

/-- C5 counterexample: on a failure whose response body is present but
falsy (the empty string here), `callNessie` does not carry the body — the
JS `||` falls back to the error message instead. -/
theorem C5_counterexample :
    callNessie (.error ⟨some (.str ""), "Network Error"⟩) =
      .obj (.cons "error" (.str "Network Error") .nil) ∧
    ¬ (callNessie (.error ⟨some (.str ""), "Network Error"⟩) =
      .obj (.cons "error" (.str "") .nil)) := by
  refine ⟨rfl, fun h => ?_⟩
  rw [show callNessie (.error ⟨some (.str ""), "Network Error"⟩) =
    .obj (.cons "error" (.str "Network Error") .nil) from rfl] at h
  injection h with h1
  injection h1 with hk hv ht
  injection hv with hs
  exact absurd hs (by decide)

/-- C5 (amended): `callNessie` returns a 2xx body verbatim; on any failure
it returns the value `{ error: e }` where `e` is the upstream response
body if present and truthy, and otherwise the generic error message (JS
`||` semantics — a present-but-falsy body is replaced by the message); it
is total by construction of its `try`/`catch`, and its result depends only
on the single first attempt (no retries). -/
theorem C5_amended (body : Json) (ae : AxiosFailure) (v : Json)
    (f g : Nat → Except AxiosFailure Json) :
    callNessie (.ok body) = body ∧
    callNessie (.error ae) = .obj (.cons "error" (nessieErrorValue ae) .nil) ∧
    (ae.responseData = some v → jsTruthy v = true → nessieErrorValue ae = v) ∧
    (ae.responseData = some v → jsTruthy v = false →
      nessieErrorValue ae = .str ae.message) ∧
    (ae.responseData = none → nessieErrorValue ae = .str ae.message) ∧
    (f 0 = g 0 → callNessieOn f = callNessieOn g) := by
  refine ⟨rfl, rfl, ?_, ?_, ?_, ?_⟩
  · intro h htv
    simp [nessieErrorValue, h, htv]
  · intro h htv
    simp [nessieErrorValue, h, htv]
  · intro h
    simp [nessieErrorValue, h]
  · intro h
    simp [callNessieOn, h]

/-- Witness for C5 (amended) at concrete attempts: a success, a failure
with a falsy body, and a failure with a truthy (structured) body. -/
theorem C5_witness :
    callNessie (.ok (.num 1)) = .num 1 ∧
    callNessie (.error ⟨some (.str ""), "boom"⟩) =
      .obj (.cons "error" (nessieErrorValue ⟨some (.str ""), "boom"⟩) .nil) ∧
    nessieErrorValue ⟨some (.str ""), "boom"⟩ = .str "boom" ∧
    nessieErrorValue ⟨some (.obj .nil), "boom"⟩ = .obj .nil ∧
    callNessieOn (fun _ => .ok .null) = callNessieOn (fun _ => .ok .null) := by
  have h1 := C5_amended (.num 1) ⟨some (.str ""), "boom"⟩ (.str "")
    (fun _ => .ok .null) (fun _ => .ok .null)
  have h2 := C5_amended (.num 1) ⟨some (.obj .nil), "boom"⟩ (.obj .nil)
    (fun _ => .ok .null) (fun _ => .ok .null)
  exact ⟨h1.1, h1.2.1, h1.2.2.2.1 rfl rfl, h2.2.2.1 rfl rfl,
    h1.2.2.2.2.2 rfl⟩
